import Mathlib

/-!
Verification of the GeoGrid dashboard's algorithmic core: the grid
coordinate computation, the ranking classifier, marker selection, the
CSV export rows, the haversine distance and the grid-parameter
fallbacks.  Each definition is a shallow embedding of a function or an
inline code fragment of the repository; floating-point numbers are
modelled as real numbers, JS array indexing as Option-valued list
lookup, and JS NaN/undefined inputs (where a claim is about them) by an
explicit value type.
-/

namespace Geogrid

/-! ## Geo-offset calculator

Two families of call sites compute grid-point coordinates.

The detailed grid view (components/detailed-grid-view.tsx, lines
449-459 for the CSV export and 568-615 for marker placement, repeated
verbatim at lines 1643-1652, 1883-1972, 2617-2628 and 2877-2924)
computes, in kilometers,
  latKmRatio = 1 / 110.574
  lngKmRatio = 1 / (111.32 * cos(location.lat * pi / 180))
  startLat = location.lat - (distance * latKmRatio * (gridSize - 1)) / 2
  lat = startLat + rowIndex * distance * latKmRatio
and the same for longitude.

The GoogleMap component (unnamed/part_000, lines 111-118) computes, in
miles,
  offset = floor(gridSize / 2)
  lat = center.lat + ((i - offset) * pointDistance) / 69
  lng = center.lng + ((j - offset) * pointDistance)
          / (69 * cos(center.lat * (pi / 180))).
-/

/-- Degrees of latitude per kilometer: the constant named latKmRatio in
detailed-grid-view.tsx (line 449). -/
noncomputable def latDegPerKm : ℝ := 1 / 110.574

/-- Degrees of longitude per kilometer at a given latitude: the constant
named lngKmRatio in detailed-grid-view.tsx (line 450). -/
noncomputable def lngDegPerKm (lat : ℝ) : ℝ :=
  1 / (111.32 * Real.cos (lat * Real.pi / 180))

/-- startLat of detailed-grid-view.tsx (line 452). -/
noncomputable def dgvStartLat (clat s : ℝ) (n : ℕ) : ℝ :=
  clat - (s * latDegPerKm * ((n : ℝ) - 1)) / 2

/-- startLng of detailed-grid-view.tsx (line 453). -/
noncomputable def dgvStartLng (clat clng s : ℝ) (n : ℕ) : ℝ :=
  clng - (s * lngDegPerKm clat * ((n : ℝ) - 1)) / 2

/-- Latitude of grid cell row i in detailed-grid-view.tsx (line 458:
startLat + rowIndex * distance * latKmRatio; identical expression at the
marker loop, line 614). -/
noncomputable def dgvLat (clat s : ℝ) (n i : ℕ) : ℝ :=
  dgvStartLat clat s n + (i : ℝ) * s * latDegPerKm

/-- Longitude of grid cell column j in detailed-grid-view.tsx (line 459;
identical expression at the marker loop, line 615). -/
noncomputable def dgvLng (clat clng s : ℝ) (n j : ℕ) : ℝ :=
  dgvStartLng clat clng s n + (j : ℝ) * s * lngDegPerKm clat

/-- offset = Math.floor(gridSize / 2) in unnamed/part_000 (line 111). -/
def gmOffset (n : ℕ) : ℕ := n / 2

/-- Latitude of grid point row i in unnamed/part_000 (line 116):
center.lat + ((i - offset) * pointDistance) / 69. -/
noncomputable def gmLat (clat s : ℝ) (n i : ℕ) : ℝ :=
  clat + (((i : ℝ) - (gmOffset n : ℝ)) * s) / 69

/-- Longitude of grid point column j in unnamed/part_000 (line 117). -/
noncomputable def gmLng (clat clng s : ℝ) (n j : ℕ) : ℝ :=
  clng + (((j : ℝ) - (gmOffset n : ℝ)) * s) / (69 * Real.cos (clat * (Real.pi / 180)))

/-- Latitude formula as the claim states it, for comparison with the
code: lat + (i - floor(n/2)) * s / 110.574. -/
noncomputable def specGridLat (clat s : ℝ) (n i : ℕ) : ℝ :=
  clat + ((i : ℝ) - ((n / 2 : ℕ) : ℝ)) * s / 110.574

/-- Longitude formula as the claim states it, for comparison with the
code: lng + (j - floor(n/2)) * s / (111.32 * cos(lat * pi / 180)). -/
noncomputable def specGridLng (clat clng s : ℝ) (n j : ℕ) : ℝ :=
  clng + ((j : ℝ) - ((n / 2 : ℕ) : ℝ)) * s / (111.32 * Real.cos (clat * Real.pi / 180))

/-! ## Ranking classifier -/

/-- getRankingColor of detailed-grid-view.tsx (lines 321-328). -/
def getRankingColor (ranking : ℤ) : String :=
  if ranking ≤ 3 then "#059669"
  else if ranking ≤ 7 then "#10b981"
  else if ranking ≤ 10 then "#f59e0b"
  else if ranking ≤ 15 then "#f97316"
  else if 16 ≤ ranking then "#ef4444"
  else "#ef4444"

/-- formatRankingLabel of detailed-grid-view.tsx (lines 331-336). -/
def formatRankingLabel (ranking : ℤ) : String :=
  if 20 ≤ ranking then "20+" else toString ranking

/-- The (iconColor, iconText) pair assigned by the if-chain of
unnamed/part_000 (lines 139-163). -/
def gmIcon (ranking : ℤ) : String × String :=
  if ranking ≤ 3 then ("#4CAF50", toString ranking)
  else if ranking ≤ 7 then ("#8BC34A", toString ranking)
  else if ranking ≤ 10 then ("#FFC107", toString ranking)
  else if ranking ≤ 15 then ("#FF9800", toString ranking)
  else if ranking ≤ 20 then ("#F44336", toString ranking)
  else ("#9E9E9E", "20+")

/-- Marker zIndex at detailed-grid-view.tsx line 635:
ranking <= 20 ? (21 - ranking) : 0. -/
def dgvZIndex (ranking : ℤ) : ℤ :=
  if ranking ≤ 20 then 21 - ranking else 0

/-- Marker zIndex at unnamed/part_000 line 187:
30 - (ranking > 20 ? 21 : ranking). -/
def gmZIndex (ranking : ℤ) : ℤ :=
  30 - (if 20 < ranking then 21 else ranking)

/-- Marker zIndex at detailed-grid-view.tsx line 2945:
100 - (i * gridSize + j), a function of the grid position only. -/
def posZIndex (n i j : ℤ) : ℤ := 100 - (i * n + j)

/-! ## Marker selection -/

/-- The rank-matrix entry at row i, column j; none models a JS
out-of-bounds (undefined) access. -/
def entryAt (d : List (List ℤ)) (i j : ℕ) : Option ℤ :=
  (d[i]?).bind fun row => row[j]?

/-- Marker decision of the detailed-grid-view marker loop (lines
612-637): skip when the row or the entry is undefined, skip when the
ranking is 0, otherwise create a marker for that ranking.  The result is
the ranking the created marker is styled with, or none when no marker is
created. -/
def dgvMarkerRank (d : List (List ℤ)) (i j : ℕ) : Option ℤ :=
  match d[i]? with
  | none => none
  | some row =>
    match row[j]? with
    | none => none
    | some r => if r = 0 then none else some r

/-- Marker decision of unnamed/part_000 (lines 124-135): markers are
added only when gridData is supplied and nonempty; the point at flat
index idx uses row = floor(idx / gridSize), col = idx mod gridSize, is
skipped when the row or entry is undefined and when the ranking is 0. -/
def gmMarkerRank (d : Option (List (List ℤ))) (n idx : ℕ) : Option ℤ :=
  match d with
  | none => none
  | some g =>
    if g.length = 0 then none
    else
      match g[idx / n]? with
      | none => none
      | some row =>
        match row[idx % n]? with
        | none => none
        | some r => if r = 0 then none else some r

/-! ## CSV export -/

/-- One data row of the CSV export (detailed-grid-view.tsx line 460):
Row, Column, Latitude, Longitude, Ranking.  The 6-decimal display
rounding of toFixed is not modelled; latitude and longitude are the
computed real values. -/
structure CsvRow where
  row : ℕ
  col : ℕ
  latitude : ℝ
  longitude : ℝ
  ranking : ℤ

/-- The inner forEach of handleCSVDownload (lines 457-461): the data
rows emitted for one grid row, with i the 0-based row index and j the
0-based column index of the first remaining cell. -/
noncomputable def csvRowEntries (clat clng s : ℝ) (n i : ℕ) : ℕ → List ℤ → List CsvRow
  | _, [] => []
  | j, r :: rest =>
    ⟨i + 1, j + 1, dgvLat clat s n i, dgvLng clat clng s n j, r⟩ ::
      csvRowEntries clat clng s n i (j + 1) rest

/-- The outer forEach of handleCSVDownload (lines 456-462), starting at
row index i. -/
noncomputable def csvRowsAux (clat clng s : ℝ) (n : ℕ) : ℕ → List (List ℤ) → List CsvRow
  | _, [] => []
  | i, row :: rest =>
    csvRowEntries clat clng s n i 0 row ++ csvRowsAux clat clng s n (i + 1) rest

/-- The full list of data rows written by handleCSVDownload
(detailed-grid-view.tsx lines 444-462) for grid data d. -/
noncomputable def handleCSVDownloadRows (clat clng s : ℝ) (n : ℕ)
    (d : List (List ℤ)) : List CsvRow :=
  csvRowsAux clat clng s n 0 d

/-- Flat position of cell (i, j) in the row-major CSV output. -/
def flatIdx (d : List (List ℤ)) (i j : ℕ) : ℕ :=
  ((d.take i).map List.length).sum + j

/-! ## Grid-parameter fallbacks and (absent) input validation

DetailedGridView (detailed-grid-view.tsx lines 70-81) resolves its
parameters with
  gridSize = Number(gridResult.gridSize) || 13
  distance = Number(gridResult.distanceKm) || 2.5
  lat = Number(gridResult.businessInfo?.location?.lat) || 0
  lng = Number(... .lng) || 0
and performs no input validation: there is no throwing or error path.
-/

/-- A JS value as the Number conversion sees it: undefined, NaN (which
Number yields for every non-numeric input) or a finite number. -/
inductive JsVal where
  | undef : JsVal
  | nan : JsVal
  | num : ℚ → JsVal
deriving DecidableEq

/-- Number(v) || d: NaN, undefined (Number gives NaN) and 0 are falsy
and fall back to the default d. -/
def numOr (v : JsVal) (d : ℚ) : ℚ :=
  match v with
  | JsVal.undef => d
  | JsVal.nan => d
  | JsVal.num x => if x = 0 then d else x

/-- The resolved grid parameters of DetailedGridView. -/
structure GridParams where
  gridSize : ℚ
  distance : ℚ
  lat : ℚ
  lng : ℚ
deriving DecidableEq

/-- Parameter resolution of DetailedGridView (lines 70-81), embedded
with an explicit error channel to record that the source has none:
every input resolves to ok with the fallback-substituted values; no
branch of the source rejects or raises. -/
def resolveGridParams (gs dk la ln : JsVal) : Except String GridParams :=
  Except.ok
    { gridSize := numOr gs 13
      distance := numOr dk (5 / 2)
      lat := numOr la 0
      lng := numOr ln 0 }

/-! ## Haversine distance -/

/-- A geographic coordinate. -/
structure Coord where
  lat : ℝ
  lng : ℝ

/-- The intermediate value a of the inline haversine computation in
showCompetitorsForGridPoint (detailed-grid-view.tsx lines 729-736):
sin(dLat/2)^2 + cos(lat1 rad) * cos(lat2 rad) * sin(dLon/2)^2, written
with the repeated products of the source. -/
noncomputable def havA (p q : Coord) : ℝ :=
  Real.sin ((q.lat - p.lat) * Real.pi / 180 / 2) *
      Real.sin ((q.lat - p.lat) * Real.pi / 180 / 2) +
    Real.cos (p.lat * Real.pi / 180) * Real.cos (q.lat * Real.pi / 180) *
      Real.sin ((q.lng - p.lng) * Real.pi / 180 / 2) *
      Real.sin ((q.lng - p.lng) * Real.pi / 180 / 2)

/-- Math.atan2 on the reals (the branches of the JS specification). -/
noncomputable def atan2 (y x : ℝ) : ℝ :=
  if 0 < x then Real.arctan (y / x)
  else if x < 0 ∧ 0 ≤ y then Real.arctan (y / x) + Real.pi
  else if x < 0 ∧ y < 0 then Real.arctan (y / x) - Real.pi
  else if 0 < y then Real.pi / 2
  else if y < 0 then -(Real.pi / 2)
  else 0

/-- The inline haversine distance of showCompetitorsForGridPoint
(detailed-grid-view.tsx lines 724-738): R * c with R = 6371 and
c = 2 * atan2(sqrt a, sqrt(1 - a)). -/
noncomputable def haversineKm (p q : Coord) : ℝ :=
  6371 * (2 * atan2 (Real.sqrt (havA p q)) (Real.sqrt (1 - havA p q)))

/-! ## Theorems -/

/-- C4: for grid size 13, spacing 2.5 and center (40, -74), the center
cell (row 6, column 6) computed at the detailed-grid-view call sites and
at the GoogleMap call site equals the input center coordinate exactly. -/
theorem c4_center_cell_exact :
    dgvLat 40 (5 / 2) 13 6 = 40 ∧ dgvLng 40 (-74) (5 / 2) 13 6 = -74 ∧
      gmLat 40 (5 / 2) 13 6 = 40 ∧ gmLng 40 (-74) (5 / 2) 13 6 = -74 := by
  refine ⟨?_, ?_, ?_, ?_⟩
  · simp only [dgvLat, dgvStartLat]
    push_cast
    ring
  · simp only [dgvLng, dgvStartLng]
    push_cast
    ring
  · simp only [gmLat, gmOffset]
    norm_num
  · simp only [gmLng, gmOffset]
    norm_num

/-- C7: the inline haversine distance returns 0 when both coordinates
are equal, and is symmetric in its two arguments. -/
theorem c7_haversine_zero_symm (p q : Coord) :
    haversineKm p p = 0 ∧ haversineKm p q = haversineKm q p := by
  constructor
  · have ha : havA p p = 0 := by simp [havA]
    rw [haversineKm, ha]
    norm_num [atan2, Real.sqrt_zero, Real.sqrt_one, Real.arctan_zero]
  · have ha : havA p q = havA q p := by
      have e1 : (p.lat - q.lat) * Real.pi / 180 / 2 =
          -((q.lat - p.lat) * Real.pi / 180 / 2) := by ring
      have e2 : (p.lng - q.lng) * Real.pi / 180 / 2 =
          -((q.lng - p.lng) * Real.pi / 180 / 2) := by ring
      rw [havA, havA, e1, e2, Real.sin_neg, Real.sin_neg]
      ring
    rw [haversineKm, haversineKm, ha]

/-- C1 counterexample: the claimed formula does not hold at every grid
call site.  At the GoogleMap call site (divisor 69, miles) the latitude
of cell (0, 0) for center (0, 0), size 3, spacing 1 differs from the
claimed 110.574-based formula, and at the detailed-grid-view call site
with even size 2 the center offset (n-1)/2 differs from floor(n/2). -/
theorem c1_counterexample :
    gmLat 0 1 3 0 ≠ specGridLat 0 1 3 0 ∧ dgvLat 0 1 2 0 ≠ specGridLat 0 1 2 0 := by
  constructor
  · simp only [gmLat, specGridLat, gmOffset]
    norm_num
  · simp only [dgvLat, dgvStartLat, specGridLat, latDegPerKm]
    norm_num

/-- C1 as amended: for odd grid sizes, the detailed-grid-view call sites
(CSV export and marker placement) compute exactly the claimed formula
lat + (i - floor(n/2)) * s / 110.574 and
lng + (j - floor(n/2)) * s / (111.32 * cos(lat * pi / 180)); the
GoogleMap call site instead divides by 69 and 69 * cos(lat * pi / 180),
and for even sizes the detailed-grid-view center offset is (n-1)/2
rather than floor(n/2). -/
theorem c1_amended_dgv_matches_formula (clat clng s : ℝ) (n i j : ℕ) (hn : Odd n) :
    dgvLat clat s n i = specGridLat clat s n i ∧
      dgvLng clat clng s n j = specGridLng clat clng s n j := by
  obtain ⟨k, hk⟩ := hn
  subst hk
  have h2 : (2 * k + 1) / 2 = k := by omega
  constructor
  · simp only [dgvLat, dgvStartLat, specGridLat, latDegPerKm, h2]
    push_cast
    ring
  · simp only [dgvLng, dgvStartLng, specGridLng, lngDegPerKm, h2]
    push_cast
    ring

/-- C1 witness: the amended statement at size 13, spacing 2.5, center
(40, -74), row 2, column 3. -/
theorem c1_amended_dgv_matches_formula_witness :
    dgvLat 40 (5 / 2) 13 2 = specGridLat 40 (5 / 2) 13 2 ∧
      dgvLng 40 (-74) (5 / 2) 13 3 = specGridLng 40 (-74) (5 / 2) 13 3 :=
  c1_amended_dgv_matches_formula 40 (-74) (5 / 2) 13 2 3 ⟨6, rfl⟩

/-- C9 counterexample: the mirrored cell is not (offset - i, offset - j).
At the GoogleMap call site with size 3 (offset 1), center latitude 0 and
spacing 1, the latitude offset of cell (offset - 0) is 0 while the
negated offset of cell 0 is 1/69. -/
theorem c9_counterexample :
    ¬(gmLat 0 1 3 (gmOffset 3 - 0) - 0 = -(gmLat 0 1 3 0 - 0)) := by
  simp only [gmLat, gmOffset]
  norm_num

/-- C9 as amended: for odd size n the mirrored cell is
(n - 1 - i, n - 1 - j), that is (2 * offset - i, 2 * offset - j): its
coordinate offset from the center is the offset of (i, j) negated in
both latitude and longitude, at the detailed-grid-view call sites and at
the GoogleMap call site. -/
theorem c9_amended_mirror (clat clng s : ℝ) (n i j : ℕ) (hn : Odd n)
    (hi : i < n) (hj : j < n) :
    dgvLat clat s n (n - 1 - i) - clat = -(dgvLat clat s n i - clat) ∧
      dgvLng clat clng s n (n - 1 - j) - clng = -(dgvLng clat clng s n j - clng) ∧
      gmLat clat s n (n - 1 - i) - clat = -(gmLat clat s n i - clat) ∧
      gmLng clat clng s n (n - 1 - j) - clng = -(gmLng clat clng s n j - clng) := by
  obtain ⟨k, hk⟩ := hn
  subst hk
  have h2 : (2 * k + 1) / 2 = k := by omega
  have hi1 : 2 * k + 1 - 1 - i = 2 * k - i := by omega
  have hj1 : 2 * k + 1 - 1 - j = 2 * k - j := by omega
  have hi2 : ((2 * k - i : ℕ) : ℝ) = 2 * (k : ℝ) - (i : ℝ) := by
    rw [Nat.cast_sub (by omega : i ≤ 2 * k)]
    push_cast
    ring
  have hj2 : ((2 * k - j : ℕ) : ℝ) = 2 * (k : ℝ) - (j : ℝ) := by
    rw [Nat.cast_sub (by omega : j ≤ 2 * k)]
    push_cast
    ring
  refine ⟨?_, ?_, ?_, ?_⟩
  · simp only [dgvLat, dgvStartLat, hi1, hi2]
    push_cast
    ring
  · simp only [dgvLng, dgvStartLng, hj1, hj2]
    push_cast
    ring
  · simp only [gmLat, gmOffset, h2, hi1, hi2]
    ring
  · simp only [gmLng, gmOffset, h2, hj1, hj2]
    ring

/-- C9 witness: the amended statement at center (7, -3), spacing 2,
size 5, cell (1, 4); the mirrored cell is (3, 0). -/
theorem c9_amended_mirror_witness :
    dgvLat 7 2 5 3 - 7 = -(dgvLat 7 2 5 1 - 7) ∧
      dgvLng 7 (-3) 2 5 0 - (-3) = -(dgvLng 7 (-3) 2 5 4 - (-3)) ∧
      gmLat 7 2 5 3 - 7 = -(gmLat 7 2 5 1 - 7) ∧
      gmLng 7 (-3) 2 5 0 - (-3) = -(gmLng 7 (-3) 2 5 4 - (-3)) :=
  c9_amended_mirror 7 (-3) 2 5 1 4 ⟨2, rfl⟩ (by norm_num) (by norm_num)

/-- C2 counterexample: the detailed-grid-view classifier does not obey
the claim at its boundary: formatRankingLabel maps rank 20 to "20+"
rather than "20", and getRankingColor maps ranks above 20 to the red
value, not to the gray value used by the GoogleMap classifier. -/
theorem c2_counterexample :
    formatRankingLabel 20 ≠ "20" ∧ getRankingColor 21 ≠ "#9E9E9E" := by
  constructor
  · decide
  · decide

/-- C2 as amended: the GoogleMap classifier returns label r.toString()
for 1 <= r <= 20 and (gray, "20+") for r > 20; the detailed-grid-view
classifier returns r.toString() only for r < 20, "20+" for every
r >= 20 (including 20 itself), and the red color, not gray, for r > 20;
at both rank-based z-index call sites every rank above 20 gets the
bottom z-order tier, strictly below the z-order of every rank in
1..20. -/
theorem c2_amended_classifier (r : ℤ) (h1 : 1 ≤ r) :
    (r ≤ 20 → (gmIcon r).2 = toString r) ∧
      (20 < r → gmIcon r = ("#9E9E9E", "20+") ∧ gmZIndex r = 9) ∧
      (r < 20 → formatRankingLabel r = toString r) ∧
      (20 ≤ r → formatRankingLabel r = "20+") ∧
      (20 < r → getRankingColor r = "#ef4444" ∧ dgvZIndex r = 0) ∧
      (20 < r → ∀ r2 : ℤ, 1 ≤ r2 → r2 ≤ 20 →
        gmZIndex r < gmZIndex r2 ∧ dgvZIndex r < dgvZIndex r2) := by
  refine ⟨?_, ?_, ?_, ?_, ?_, ?_⟩
  · intro h20
    unfold gmIcon
    split_ifs <;> rfl
  · intro h20
    constructor
    · unfold gmIcon
      split_ifs <;> first | rfl | omega
    · unfold gmZIndex
      rw [if_pos h20]
      norm_num
  · intro h20
    unfold formatRankingLabel
    rw [if_neg (by omega)]
  · intro h20
    unfold formatRankingLabel
    rw [if_pos h20]
  · intro h20
    constructor
    · unfold getRankingColor
      split_ifs <;> first | rfl | omega
    · unfold dgvZIndex
      rw [if_neg (by omega)]
  · intro h20 r2 hr1 hr2
    unfold gmZIndex dgvZIndex
    split_ifs <;> omega

/-- C2 witness: the amended statement at rank 25. -/
theorem c2_amended_classifier_witness :
    ((25 : ℤ) ≤ 20 → (gmIcon 25).2 = toString (25 : ℤ)) ∧
      ((20 : ℤ) < 25 → gmIcon 25 = ("#9E9E9E", "20+") ∧ gmZIndex 25 = 9) ∧
      ((25 : ℤ) < 20 → formatRankingLabel 25 = toString (25 : ℤ)) ∧
      ((20 : ℤ) ≤ 25 → formatRankingLabel 25 = "20+") ∧
      ((20 : ℤ) < 25 → getRankingColor 25 = "#ef4444" ∧ dgvZIndex 25 = 0) ∧
      ((20 : ℤ) < 25 → ∀ r2 : ℤ, 1 ≤ r2 → r2 ≤ 20 →
        gmZIndex 25 < gmZIndex r2 ∧ dgvZIndex 25 < dgvZIndex r2) :=
  c2_amended_classifier 25 (by norm_num)

/-- C3: the z-index call site at detailed-grid-view.tsx line 2945 sets
zIndex from the grid position, not the rank, although its comment says
higher rankings appear above lower ones: in a size-13 grid, a marker
with rank 1 at cell (0, 1) gets z-index 99 while a marker with rank 2 at
cell (0, 0) gets z-index 100, so the better rank draws below the worse
one; the rank-based call sites (lines 635 and part_000 line 187) do
order rank 1 above rank 2. -/
theorem c3_position_zindex_bug :
    posZIndex 13 0 1 = 99 ∧ posZIndex 13 0 0 = 100 ∧
      posZIndex 13 0 1 < posZIndex 13 0 0 ∧
      dgvZIndex 2 < dgvZIndex 1 ∧ gmZIndex 2 < gmZIndex 1 := by
  refine ⟨?_, ?_, ?_, ?_, ?_⟩ <;> decide

/-- C8 counterexample: a malformed input is not rejected.  With a NaN
grid size, a zero spacing and missing and NaN location coordinates, the
parameter resolution of DetailedGridView succeeds with the fallback
values 13, 2.5, 0, 0 instead of propagating an input-validation
error. -/
theorem c8_counterexample :
    resolveGridParams JsVal.nan (JsVal.num 0) JsVal.undef JsVal.nan =
      Except.ok ⟨13, 5 / 2, 0, 0⟩ := by
  simp [resolveGridParams, numOr]

/-- C8 as amended: malformed grid parameters are not rejected with an
error; the view silently substitutes the defaults 13 (grid size), 2.5
(spacing) and 0 (location coordinates) for NaN, zero or missing inputs,
and the resolution never takes an error path for any input. -/
theorem c8_amended_no_rejection (gs dk la ln : JsVal) :
    resolveGridParams gs dk la ln =
        Except.ok ⟨numOr gs 13, numOr dk (5 / 2), numOr la 0, numOr ln 0⟩ ∧
      ∀ e : String, resolveGridParams gs dk la ln ≠ Except.error e := by
  constructor
  · rfl
  · intro e h
    exact Except.noConfusion h

/-- C10: the fallbacks of DetailedGridView: NaN or zero grid size
resolves to 13, NaN or zero spacing to 2.5, a missing or non-numeric
location coordinate to 0; and in general every resolved parameter is
either the default or the supplied nonzero finite number, so the view
never computes with a NaN grid parameter. -/
theorem c10_fallback_defaults :
    numOr JsVal.nan 13 = 13 ∧ numOr (JsVal.num 0) 13 = 13 ∧
      numOr JsVal.nan (5 / 2) = 5 / 2 ∧ numOr (JsVal.num 0) (5 / 2) = 5 / 2 ∧
      numOr JsVal.undef 0 = 0 ∧ numOr JsVal.nan 0 = 0 ∧
      ∀ (v : JsVal) (d : ℚ), numOr v d = d ∨ ∃ x : ℚ, v = JsVal.num x ∧ numOr v d = x := by
  refine ⟨rfl, by simp [numOr], rfl, by simp [numOr], rfl, rfl, ?_⟩
  intro v d
  match v with
  | JsVal.undef => exact Or.inl rfl
  | JsVal.nan => exact Or.inl rfl
  | JsVal.num x =>
    by_cases hx : x = 0
    · exact Or.inl (by simp [numOr, hx])
    · exact Or.inr ⟨x, rfl, by simp [numOr, hx]⟩

theorem csvRowEntries_length (clat clng s : ℝ) (n i : ℕ) (row : List ℤ) (j : ℕ) :
    (csvRowEntries clat clng s n i j row).length = row.length := by
  induction row generalizing j with
  | nil => rfl
  | cons r rest ih => simp [csvRowEntries, ih]

theorem csvRowEntries_getElem? (clat clng s : ℝ) (n i : ℕ) (row : List ℤ) (j k : ℕ) :
    (csvRowEntries clat clng s n i j row)[k]? =
      (row[k]?).map fun r =>
        CsvRow.mk (i + 1) (j + k + 1) (dgvLat clat s n i) (dgvLng clat clng s n (j + k)) r := by
  induction row generalizing j k with
  | nil => simp [csvRowEntries]
  | cons r rest ih =>
    cases k with
    | zero => simp [csvRowEntries]
    | succ k =>
      have hjk : j + 1 + k = j + (k + 1) := by omega
      simp only [csvRowEntries, List.getElem?_cons_succ, ih (j + 1) k, hjk]

theorem csvRowsAux_length (clat clng s : ℝ) (n : ℕ) (d : List (List ℤ)) (b : ℕ) :
    (csvRowsAux clat clng s n b d).length = (d.map List.length).sum := by
  induction d generalizing b with
  | nil => rfl
  | cons row rest ih => simp [csvRowsAux, csvRowEntries_length, ih]

theorem csvRowsAux_getElem? (clat clng s : ℝ) (n : ℕ) :
    ∀ (d : List (List ℤ)) (b a j : ℕ) (row : List ℤ) (r : ℤ),
      d[a]? = some row → row[j]? = some r →
      (csvRowsAux clat clng s n b d)[flatIdx d a j]? =
        some ⟨b + a + 1, j + 1, dgvLat clat s n (b + a), dgvLng clat clng s n j, r⟩ := by
  intro d
  induction d with
  | nil =>
    intro b a j row r ha hj
    simp at ha
  | cons row0 rest ih =>
    intro b a j row r ha hj
    cases a with
    | zero =>
      rw [List.getElem?_cons_zero] at ha
      obtain rfl : row0 = row := Option.some.inj ha
      have hj' : j < row0.length := by
        rcases List.getElem?_eq_some.mp hj with ⟨h, _⟩
        exact h
      have hf : flatIdx (row0 :: rest) 0 j = j := by simp [flatIdx]
      rw [hf]
      show (csvRowEntries clat clng s n b 0 row0 ++ csvRowsAux clat clng s n (b + 1) rest)[j]? = _
      rw [List.getElem?_append, if_pos (by rw [csvRowEntries_length]; exact hj')]
      rw [csvRowEntries_getElem?]
      simp [hj]
    | succ a =>
      rw [List.getElem?_cons_succ] at ha
      have hf : flatIdx (row0 :: rest) (a + 1) j = row0.length + flatIdx rest a j := by
        simp [flatIdx, List.take_succ_cons]
        omega
      rw [hf]
      show (csvRowEntries clat clng s n b 0 row0 ++
          csvRowsAux clat clng s n (b + 1) rest)[row0.length + flatIdx rest a j]? = _
      rw [List.getElem?_append, if_neg (by rw [csvRowEntries_length]; omega)]
      rw [csvRowEntries_length]
      have hidx : row0.length + flatIdx rest a j - row0.length = flatIdx rest a j := by omega
      rw [hidx]
      rw [ih (b + 1) a j row r ha hj]
      have hba : b + 1 + a = b + (a + 1) := by omega
      rw [hba]

/-- C5: the CSV export writes exactly one data row per cell of the rank
matrix (the length equation), in row-major order: the cell at 0-based
row a and column j appears at flat position
(sum of the lengths of the rows before a) + j, carries the 1-based
indices a + 1 and j + 1, the computed coordinates, and its rank value
verbatim, including rank 0. -/
theorem c5_csv_rows (clat clng s : ℝ) (n : ℕ) (d : List (List ℤ))
    (a j : ℕ) (row : List ℤ) (r : ℤ)
    (ha : d[a]? = some row) (hj : row[j]? = some r) :
    (handleCSVDownloadRows clat clng s n d).length = (d.map List.length).sum ∧
      (handleCSVDownloadRows clat clng s n d)[flatIdx d a j]? =
        some ⟨a + 1, j + 1, dgvLat clat s n a, dgvLng clat clng s n j, r⟩ := by
  constructor
  · exact csvRowsAux_length clat clng s n d 0
  · have h := csvRowsAux_getElem? clat clng s n d 0 a j row r ha hj
    simpa using h

/-- C5 witness: a ragged 2-row grid with a zero-rank cell; the cell at
0-based position (0, 1) holding rank 0 appears at flat position 1 with
1-based indices (1, 2) and its rank written verbatim. -/
theorem c5_csv_rows_witness :
    (handleCSVDownloadRows 40 (-74) (5 / 2) 13 [[3, 0], [21]]).length =
        (([[3, 0], [21]] : List (List ℤ)).map List.length).sum ∧
      (handleCSVDownloadRows 40 (-74) (5 / 2) 13 [[3, 0], [21]])[flatIdx [[3, 0], [21]] 0 1]? =
        some ⟨1, 2, dgvLat 40 (5 / 2) 13 0, dgvLng 40 (-74) (5 / 2) 13 1, 0⟩ :=
  c5_csv_rows 40 (-74) (5 / 2) 13 [[3, 0], [21]] 0 1 [3, 0] 0 rfl rfl

/-- C6: at both marker call sites, a styled ranking marker is produced
for a cell exactly when the rank matrix is supplied, the entry at that
cell is defined, and the entry is nonzero; in particular rank-0 cells
are never rendered.  The GoogleMap site, which addresses the matrix by
flat point index, agrees cell-for-cell with the detailed-grid-view
site. -/
theorem c6_marker_iff (d : List (List ℤ)) (od : Option (List (List ℤ))) (n idx i j : ℕ) :
    ((dgvMarkerRank d i j).isSome ↔ ∃ r, entryAt d i j = some r ∧ r ≠ 0) ∧
      ((gmMarkerRank od n idx).isSome ↔
        ∃ g r, od = some g ∧ entryAt g (idx / n) (idx % n) = some r ∧ r ≠ 0) ∧
      ∀ g, gmMarkerRank (some g) n idx = dgvMarkerRank g (idx / n) (idx % n) := by
  have key : ∀ (g : List (List ℤ)) (a b : ℕ),
      (dgvMarkerRank g a b).isSome ↔ ∃ r, entryAt g a b = some r ∧ r ≠ 0 := by
    intro g a b
    cases hd : g[a]? with
    | none => simp [dgvMarkerRank, entryAt, hd]
    | some row =>
      cases hr : row[b]? with
      | none => simp [dgvMarkerRank, entryAt, hd, hr]
      | some r =>
        by_cases h0 : r = 0
        · simp [dgvMarkerRank, entryAt, hd, hr, h0]
        · simp [dgvMarkerRank, entryAt, hd, hr, h0]
  have agree : ∀ g, gmMarkerRank (some g) n idx = dgvMarkerRank g (idx / n) (idx % n) := by
    intro g
    by_cases hg : g.length = 0
    · obtain rfl : g = [] := List.length_eq_zero.mp hg
      simp [gmMarkerRank, dgvMarkerRank]
    · simp only [gmMarkerRank, dgvMarkerRank]
      rw [if_neg hg]
  refine ⟨key d i j, ?_, agree⟩
  cases od with
  | none => simp [gmMarkerRank]
  | some g =>
    rw [agree g, key g (idx / n) (idx % n)]
    simp

end Geogrid
